import Mathlib

/-!
Verification of `webauthn.js` (npm-webauthn-client): a shallow embedding of
the CBOR axios interceptors and the two-phase WebAuthn ceremony orchestrator,
with theorems checking the module's documented behavior.

Modelling conventions:
* JavaScript runtime values are the inductive `JSValue`; `ArrayBuffer` /
  `Uint8Array` / `Buffer` binary data is `JSValue.bytes`.
* `await` points are sequentialized (single-threaded event loop): an async
  operation is its eventual outcome, `Except e a` (resolve / reject).
* The axios request/response objects touched by the interceptors are records
  with the fields the source reads or writes (`headers`, `data`,
  `responseType`).
* The external collaborators (the cbor codec, the HTTP transport, the
  platform credential capability) are parameters of the embedding; the
  concrete instances used by witnesses are explicitly spec-modelled stand-ins.
-/

/-- A JavaScript runtime value, as far as this module manipulates them. -/
inductive JSValue where
  | undefined : JSValue
  | null : JSValue
  | num (n : Int) : JSValue
  | str (s : String) : JSValue
  | bytes (bs : List Nat) : JSValue
  | arr (xs : List JSValue) : JSValue
  | obj (fields : List (String × JSValue)) : JSValue
deriving Repr

/-- Lookup of `headers[k]` on a JS header map: the first binding of the key,
`none` modelling JS `undefined` for an absent key. -/
def getHeader (hs : List (String × String)) (k : String) : Option String :=
  (hs.find? fun p => p.1 == k).map fun p => p.2

/-- The axios request object as seen by `cborRequestInterceptor`:
`request.headers`, `request.data`, `request.responseType` (unset = `none`). -/
structure AxRequest where
  headers : List (String × String)
  data : JSValue
  responseType : Option String
deriving Repr

/-- The axios response object as seen by `cborResponseInterceptor`. -/
structure AxResponse where
  headers : List (String × String)
  data : JSValue
deriving Repr

/-- JS array destructuring `const [data] = xs`: the first element, or
`undefined` when the array is empty. -/
def firstDestructure (xs : List JSValue) : JSValue := xs.headD JSValue.undefined

/-- Embedding of `cborRequestInterceptor` from `src/webauthn.js`:
if `request.headers['content-type'] === 'application/cbor'`, replace
`request.data` with `await encodeAsync(request.data)` and set
`request.responseType = "arraybuffer"`; otherwise return the request as is.
`encodeAsync` is the external cbor library's encoder, a parameter here. -/
def cborRequestInterceptor (encodeAsync : JSValue → JSValue)
    (request : AxRequest) : AxRequest :=
  if getHeader request.headers "content-type" = some "application/cbor" then
    { request with
        data := encodeAsync request.data
        responseType := some "arraybuffer" }
  else request

/-- Modelled from the spec: header bytes of the external cbor library's
self-describing binary serialization, for a representative value fragment
(integers, byte strings, arrays, null, undefined). The initial byte carries a
major type (high 3 bits) and an argument: inline below 24, one extra byte
below 256, two extra bytes otherwise. -/
def encodeCborHead (major : Nat) (n : Nat) : List Nat :=
  if n < 24 then [major * 32 + n]
  else if n < 256 then [major * 32 + 24, n]
  else [major * 32 + 25, n / 256, n % 256]

mutual

/-- Modelled from the spec: the external cbor library's encoder
(`encodeAsync`, §1 treats the codec as a library dependency) on the
representative fragment; strings and maps fall back to the `undefined`
encoding, which keeps the function total without affecting any witness. -/
def encodeCbor : JSValue → List Nat
  | .undefined => [247]
  | .null => [246]
  | .str _ => [247]
  | .obj _ => [247]
  | .num n => if 0 ≤ n then encodeCborHead 0 n.toNat else encodeCborHead 1 (-1 - n).toNat
  | .bytes bs => encodeCborHead 2 bs.length ++ bs
  | .arr xs => encodeCborHead 4 xs.length ++ encodeCborList xs

/-- Encoding of a sequence of array elements, concatenated. -/
def encodeCborList : List JSValue → List Nat
  | [] => []
  | v :: vs => encodeCbor v ++ encodeCborList vs

end

/-- Read the argument of a cbor initial byte: `info` inline below 24,
`24`/`25` announcing one/two following bytes. -/
def readCborArg (info : Nat) (rest : List Nat) : Option (Nat × List Nat) :=
  if info < 24 then some (info, rest)
  else if info = 24 then
    match rest with
    | b :: r => some (b, r)
    | [] => none
  else if info = 25 then
    match rest with
    | b1 :: b2 :: r => some (b1 * 256 + b2, r)
    | _ => none
  else none

mutual

/-- Modelled from the spec: one step of the external cbor decoder — parse a
single data item from a byte stream and return it with the remaining bytes.
Fuel bounds the nesting depth; any byte stream of length `l` parses within
fuel `l + 1`. -/
def decodeCborOne : Nat → List Nat → Option (JSValue × List Nat)
  | 0, _ => none
  | _ + 1, [] => none
  | fuel + 1, b :: rest =>
    let major := b / 32
    let info := b % 32
    if major = 0 then
      match readCborArg info rest with
      | some (n, r) => some (.num (Int.ofNat n), r)
      | none => none
    else if major = 1 then
      match readCborArg info rest with
      | some (n, r) => some (.num (-1 - Int.ofNat n), r)
      | none => none
    else if major = 2 then
      match readCborArg info rest with
      | some (n, r) => if n ≤ r.length then some (.bytes (r.take n), r.drop n) else none
      | none => none
    else if major = 4 then
      match readCborArg info rest with
      | some (n, r) =>
        match decodeCborMany fuel n r with
        | some (vs, r2) => some (.arr vs, r2)
        | none => none
      | none => none
    else if b = 246 then some (.null, rest)
    else if b = 247 then some (.undefined, rest)
    else none

/-- Parse exactly `n` consecutive data items (the elements of an array). -/
def decodeCborMany : Nat → Nat → List Nat → Option (List JSValue × List Nat)
  | 0, _, _ => none
  | _ + 1, 0, bs => some ([], bs)
  | fuel + 1, n + 1, bs =>
    match decodeCborOne fuel bs with
    | some (v, rest) =>
      match decodeCborMany fuel n rest with
      | some (vs, r2) => some (v :: vs, r2)
      | none => none
    | none => none

end

/-- Repeatedly parse data items until the stream is exhausted or malformed:
the list of all concatenated items, as the library's `decodeAll` returns. -/
def decodeCborLoop : Nat → List Nat → List JSValue
  | 0, _ => []
  | _ + 1, [] => []
  | fuel + 1, b :: rest =>
    match decodeCborOne (fuel + 1) (b :: rest) with
    | some (v, r) => v :: decodeCborLoop fuel r
    | none => []

/-- Modelled from the spec: `bs => decodeAll(Buffer.from(bs))` of the external
cbor library on the representative fragment — decode every concatenated data
item of a binary response body (a non-binary body yields no items). -/
def decodeAllCbor (v : JSValue) : List JSValue :=
  match v with
  | .bytes bs => decodeCborLoop (bs.length + 1) bs
  | _ => []

/-- The encoder packaged the way `cborRequestInterceptor` uses it: the encoded
form is itself a binary buffer value. -/
def encodeAsyncCbor (v : JSValue) : JSValue := .bytes (encodeCbor v)

/-- Embedding of `cborResponseInterceptor` from `src/webauthn.js`:
if `response.headers['content-type'] === 'application/cbor'`, run
`const [data] = await decodeAll(Buffer.from(response.data))` and replace
`response.data` with `data`; otherwise return the response as is.
The parameter `decodeAll` models the composite
`bs => decodeAll(Buffer.from(bs))` of the external cbor library. -/
def cborResponseInterceptor (decodeAll : JSValue → List JSValue)
    (response : AxResponse) : AxResponse :=
  if getHeader response.headers "content-type" = some "application/cbor" then
    { response with data := firstDestructure (decodeAll response.data) }
  else response

/-- Error code `WEBAUTHN_REGISTER_FAIL_BEGIN` from `src/webauthn.js`. -/
def WEBAUTHN_REGISTER_FAIL_BEGIN : Nat := 1

/-- Error code `WEBAUTHN_REGISTER_FAIL_COMPLETE` from `src/webauthn.js`. -/
def WEBAUTHN_REGISTER_FAIL_COMPLETE : Nat := 2

/-- Error code `WEBAUTHN_LOGIN_FAIL_BEGIN` from `src/webauthn.js`. -/
def WEBAUTHN_LOGIN_FAIL_BEGIN : Nat := 3

/-- Error code `WEBAUTHN_LOGIN_FAIL_COMPLETE` from `src/webauthn.js`. -/
def WEBAUTHN_LOGIN_FAIL_COMPLETE : Nat := 4

/-- JS property access `v.k`: the first binding of the key on an object,
`undefined` for an absent key or a non-object receiver. -/
def getField (v : JSValue) (k : String) : JSValue :=
  match v with
  | .obj fields => ((fields.find? fun p => p.1 == k).map fun p => p.2).getD .undefined
  | _ => .undefined

/-- The fields contributed by spreading `...payload` into an object literal:
an object's own fields; a non-object spreads to no string-keyed fields
(the module only ever spreads the caller's payload mapping). -/
def objSpread (v : JSValue) : List (String × JSValue) :=
  match v with
  | .obj fields => fields
  | _ => []

/-- Setting key `k` in an object literal after a spread: overwrite every
binding of an existing key in place (JS keeps the original key position), or
append a new binding at the end. -/
def objInsert (fields : List (String × JSValue)) (k : String) (v : JSValue) :
    List (String × JSValue) :=
  if fields.any fun p => p.1 == k then
    fields.map fun p => if p.1 == k then (k, v) else p
  else fields ++ [(k, v)]

/-- The key list of an object value (empty for non-objects). -/
def objKeys (v : JSValue) : List String := (objSpread v).map fun p => p.1

/-- JS `new Uint8Array(x)` for the `ArrayBuffer` views this module builds: a
binary buffer with the same bytes; any non-buffer argument yields an empty
buffer. -/
def toUint8Array : JSValue → JSValue
  | .bytes bs => .bytes bs
  | _ => .bytes []

/-- Embedding of `complete_payload_callback` inside `webauthn_login`:
`{...payload, credentialId: new Uint8Array(assertion.rawId), authenticatorData:
new Uint8Array(assertion.response.authenticatorData), clientDataJSON:
new Uint8Array(assertion.response.clientDataJSON), signature:
new Uint8Array(assertion.response.signature)}`. -/
def login_complete_payload_callback (payload assertion : JSValue) : JSValue :=
  .obj (objInsert (objInsert (objInsert (objInsert (objSpread payload)
    "credentialId" (toUint8Array (getField assertion "rawId")))
    "authenticatorData" (toUint8Array (getField (getField assertion "response") "authenticatorData")))
    "clientDataJSON" (toUint8Array (getField (getField assertion "response") "clientDataJSON")))
    "signature" (toUint8Array (getField (getField assertion "response") "signature")))

/-- Embedding of `complete_payload_callback` inside `webauthn_register`:
`{...payload, attestationObject: new Uint8Array(attestation.response.attestationObject),
clientDataJSON: new Uint8Array(attestation.response.clientDataJSON)}`. -/
def register_complete_payload_callback (payload attestation : JSValue) : JSValue :=
  .obj (objInsert (objInsert (objSpread payload)
    "attestationObject" (toUint8Array (getField (getField attestation "response") "attestationObject")))
    "clientDataJSON" (toUint8Array (getField (getField attestation "response") "clientDataJSON")))

/-- The external world of one ceremony invocation: the outcome of each
awaited operation. `post url body` is what the promise `ax.post(url, body)`
settles to; `credentials_callback arg` is what the platform credential
capability promise settles to when called with `arg`; `failureReturn` is the
value the caller-supplied `failure_callback` returns (the default
`console.log` callback returns `undefined`), which matters because the
begin-phase `.catch` resolves with it. -/
structure CeremonyEnv where
  post : String → JSValue → Except JSValue AxResponse
  credentials_callback : JSValue → Except JSValue JSValue
  failureReturn : JSValue → Nat → JSValue

/-- Observable events of one ceremony invocation, in order within each list:
arguments passed to `credentials_callback`, `(url, body)` pairs posted,
responses passed to `success_callback`, `(error, code)` pairs passed to
`failure_callback`. -/
structure Trace where
  credentialsCalls : List JSValue
  posts : List (String × JSValue)
  successCalls : List AxResponse
  failureCalls : List (JSValue × Nat)
deriving Repr

/-- What one call of `webauthn_internal` produces: the trace of the promise
chain it starts, and the value the function itself returns to its caller —
`none` models JS `undefined` (the source body has no return statement; a
returned in-flight chain would be `some` of that chain's trace). -/
structure RunResult where
  trace : Trace
  ret : Option Trace
deriving Repr

/-- The tail of the chain in `webauthn_internal` from
`.then(opts => credentials_callback(opts))` on: call the capability with
`opts`; if it rejects, no further handler is attached (the rejection is
unhandled and nothing else runs); if it resolves with `auth`, post
`complete_context_callback(payload, auth)` to `completeurl`, then either
`success_callback(res)` or `failure_callback(error, complete_failure_code)`. -/
def webauthn_from_opts (ax : CeremonyEnv) (payload : JSValue)
    (complete_context_callback : JSValue → JSValue → JSValue)
    (completeurl : String) (complete_failure_code : Nat)
    (opts : JSValue) : Trace :=
  match ax.credentials_callback opts with
  | .error _ =>
    { credentialsCalls := [opts], posts := [], successCalls := [], failureCalls := [] }
  | .ok auth =>
    let cp := complete_context_callback payload auth
    match ax.post completeurl cp with
    | .ok res =>
      { credentialsCalls := [opts], posts := [(completeurl, cp)],
        successCalls := [res], failureCalls := [] }
    | .error e =>
      { credentialsCalls := [opts], posts := [(completeurl, cp)],
        successCalls := [], failureCalls := [(e, complete_failure_code)] }

/-- Embedding of `webauthn_internal` from `src/webauthn.js`:
`ax.post(beginurl, payload).then(res => res.data).catch(error =>
failure_callback(error, begin_failure_code)).then(opts =>
credentials_callback(opts)).then(auth => ...)`.
When the begin post resolves, `opts` is `res.data`. When it rejects, the
`.catch` runs `failure_callback` and — because a `.catch` handler that
returns normally resolves the chain — the chain continues with `opts` equal
to the value `failure_callback` returned. The function body never returns
the chain, so `ret` is `none` (JS `undefined`). -/
def webauthn_internal (ax : CeremonyEnv) (payload : JSValue)
    (complete_context_callback : JSValue → JSValue → JSValue)
    (beginurl completeurl : String)
    (begin_failure_code complete_failure_code : Nat) : RunResult :=
  match ax.post beginurl payload with
  | .ok res =>
    let t := webauthn_from_opts ax payload complete_context_callback
      completeurl complete_failure_code res.data
    { trace := { t with posts := (beginurl, payload) :: t.posts }, ret := none }
  | .error e =>
    let t := webauthn_from_opts ax payload complete_context_callback
      completeurl complete_failure_code (ax.failureReturn e begin_failure_code)
    { trace :=
        { t with
            posts := (beginurl, payload) :: t.posts
            failureCalls := (e, begin_failure_code) :: t.failureCalls },
      ret := none }

/-- Embedding of `webauthn_login` from `src/webauthn.js`: configures
`webauthn_internal` with the assertion `complete_payload_callback` and the
login failure codes, and returns `webauthn_internal`'s value. The source
defaults are `beginurl = "/api/auth/login/begin/"`,
`completeurl = "/api/auth/login/"`. -/
def webauthn_login (ax : CeremonyEnv) (payload : JSValue)
    (beginurl completeurl : String) : RunResult :=
  webauthn_internal ax payload login_complete_payload_callback
    beginurl completeurl WEBAUTHN_LOGIN_FAIL_BEGIN WEBAUTHN_LOGIN_FAIL_COMPLETE

/-- Embedding of `webauthn_register` from `src/webauthn.js`: configures
`webauthn_internal` with the attestation `complete_payload_callback` and the
register failure codes, and returns `webauthn_internal`'s value. The source
defaults are `beginurl = "/api/auth/register/begin/"`,
`completeurl = "/api/auth/register/"`. -/
def webauthn_register (ax : CeremonyEnv) (payload : JSValue)
    (beginurl completeurl : String) : RunResult :=
  webauthn_internal ax payload register_complete_payload_callback
    beginurl completeurl WEBAUTHN_REGISTER_FAIL_BEGIN WEBAUTHN_REGISTER_FAIL_COMPLETE

/-- A concrete caller payload, `{username: "alice"}`. -/
def exPayload : JSValue := .obj [("username", .str "alice")]

/-- A concrete begin-endpoint response carrying challenge options. -/
def exBeginResp : AxResponse :=
  { headers := [("content-type", "application/cbor")]
    data := .obj [("challenge", .bytes [9, 9])] }

/-- A concrete complete-endpoint response. -/
def exCompleteResp : AxResponse :=
  { headers := [("content-type", "application/cbor")], data := .str "ok" }

/-- A concrete platform assertion result, shaped as
`navigator.credentials.get` resolves it. -/
def exAssertion : JSValue :=
  .obj [("rawId", .bytes [1]),
        ("response", .obj [("authenticatorData", .bytes [2]),
                           ("clientDataJSON", .bytes [3]),
                           ("signature", .bytes [4])])]

/-- A concrete platform attestation result, shaped as
`navigator.credentials.create` resolves it. -/
def exAttestation : JSValue :=
  .obj [("response", .obj [("attestationObject", .bytes [5]),
                           ("clientDataJSON", .bytes [6])])]

/-- A concrete transport error for a rejected begin post. -/
def exBeginError : JSValue := .str "Network Error"

/-- A concrete transport error for a rejected complete post. -/
def exCompleteError : JSValue := .str "Request failed with status code 500"

/-- A concrete platform rejection (user cancelled the prompt). -/
def exCancelError : JSValue := .str "NotAllowedError"

/-- Environment where both posts resolve and the platform capability
resolves with `exAssertion`. -/
def exEnvSuccess : CeremonyEnv :=
  { post := fun url _ =>
      if url = "/api/auth/login/begin/" then .ok exBeginResp else .ok exCompleteResp
    credentials_callback := fun _ => .ok exAssertion
    failureReturn := fun _ _ => .undefined }

/-- Environment where the begin post resolves but the platform capability
rejects (user cancellation). -/
def exEnvCredReject : CeremonyEnv :=
  { post := fun url _ =>
      if url = "/api/auth/login/begin/" then .ok exBeginResp else .ok exCompleteResp
    credentials_callback := fun _ => .error exCancelError
    failureReturn := fun _ _ => .undefined }

/-- Environment where the begin post resolves, the capability resolves, and
the complete post rejects. -/
def exEnvCompleteFail : CeremonyEnv :=
  { post := fun url _ =>
      if url = "/api/auth/login/begin/" then .ok exBeginResp else .error exCompleteError
    credentials_callback := fun _ => .ok exAssertion
    failureReturn := fun _ _ => .undefined }

/-- Environment where the begin post rejects; the capability resolves even on
the `undefined` argument the continued chain feeds it, and the complete post
rejects — exercising the missing short-circuit after a begin failure. -/
def exEnvBeginFail : CeremonyEnv :=
  { post := fun url _ =>
      if url = "/api/auth/login/begin/" then .error exBeginError else .error exCompleteError
    credentials_callback := fun _ => .ok exAssertion
    failureReturn := fun _ _ => .undefined }

/-- A concrete outbound request with the binary content-type marker. -/
def exReqCbor : AxRequest :=
  { headers := [("content-type", "application/cbor")]
    data := .obj [("username", .str "alice")]
    responseType := none }

/-- A concrete outbound request with a non-binary content-type. -/
def exReqJson : AxRequest :=
  { headers := [("content-type", "application/json")]
    data := .obj [("username", .str "alice")]
    responseType := none }

/-- A concrete inbound response with a non-binary content-type. -/
def exRespJson : AxResponse :=
  { headers := [("content-type", "application/json")], data := .str "y" }

/-- A structured value inside the representative codec fragment, used to
exercise the encode-then-decode round trip. -/
def exRoundTripValue : JSValue :=
  .arr [.num 5, .bytes [1, 2], .null, .num (-3), .num 300]

/-- A concrete binary-marked request carrying `exRoundTripValue`. -/
def exReqRound : AxRequest :=
  { headers := [("content-type", "application/cbor")]
    data := exRoundTripValue
    responseType := none }

/-- A concrete binary-marked response whose body holds two concatenated
data items. -/
def exRespMulti : AxResponse :=
  { headers := [("content-type", "application/cbor")]
    data := .bytes (encodeCbor (.num 7) ++ encodeCbor (.num 8)) }

/-- A concrete binary-marked response with an empty body (zero data items). -/
def exRespEmpty : AxResponse :=
  { headers := [("content-type", "application/cbor")], data := .bytes [] }

/-- Overwriting an existing key: the rewritten list still finds the key, now
bound to the new value. -/
theorem find_overwrite_self (fs : List (String × JSValue)) (k : String) (v : JSValue)
    (h : (fs.any fun p => p.1 == k) = true) :
    ((fs.map fun p => if p.1 == k then (k, v) else p).find? fun p => p.1 == k)
      = some (k, v) := by
  induction fs with
  | nil => simp at h
  | cons p rest ih =>
    simp only [List.any_cons, Bool.or_eq_true] at h
    cases hp : (p.1 == k) with
    | true =>
      simp only [List.map_cons, hp, if_true]
      exact List.find?_cons_of_pos _ (by simp)
    | false =>
      have hr : (rest.any fun p => p.1 == k) = true := by
        rcases h with h | h
        · rw [hp] at h; cases h
        · exact h
      simp only [List.map_cons, hp, Bool.false_eq_true, if_false]
      rw [List.find?_cons_of_neg _ (by simp [hp]), ih hr]

/-- Overwriting key `k'` leaves lookups of any other key `k` unchanged. -/
theorem find_overwrite_other (fs : List (String × JSValue)) {k k' : String}
    (v : JSValue) (h : k ≠ k') :
    ((fs.map fun p => if p.1 == k' then (k', v) else p).find? fun p => p.1 == k)
      = fs.find? fun p => p.1 == k := by
  have hk'k : (k' == k) = false := beq_eq_false_iff_ne.mpr fun e => h e.symm
  induction fs with
  | nil => simp
  | cons p rest ih =>
    cases hp : (p.1 == k') with
    | true =>
      have hpk : (p.1 == k) = false := by
        rw [beq_iff_eq.mp hp]; exact hk'k
      simp only [List.map_cons, hp, if_true, List.find?_cons, hk'k, hpk]
      exact ih
    | false =>
      simp only [List.map_cons, hp, Bool.false_eq_true, if_false, List.find?_cons]
      cases hpk : (p.1 == k) with
      | true => simp only [hpk]
      | false =>
        simp only [hpk]
        exact ih

/-- Overwriting an existing key does not change the key list. -/
theorem keys_overwrite (fs : List (String × JSValue)) (k : String) (v : JSValue) :
    ((fs.map fun p => if p.1 == k then (k, v) else p).map fun p => p.1)
      = fs.map fun p => p.1 := by
  rw [List.map_map]
  apply List.map_congr_left
  intro p _
  cases hp : (p.1 == k) with
  | true =>
    simp only [Function.comp_apply, hp, if_true]
    exact (beq_iff_eq.mp hp).symm
  | false =>
    simp only [Function.comp_apply, hp, Bool.false_eq_true, if_false]

/-- `objInsert` binds the inserted key to the inserted value. -/
theorem objInsert_find_self (fs : List (String × JSValue)) (k : String) (v : JSValue) :
    ((objInsert fs k v).find? fun p => p.1 == k) = some (k, v) := by
  unfold objInsert
  cases h : fs.any fun p => p.1 == k with
  | true =>
    simp only [if_true]
    exact find_overwrite_self fs k v h
  | false =>
    simp only [Bool.false_eq_true, if_false]
    rw [List.find?_append]
    have hnone : (fs.find? fun p => p.1 == k) = none := by
      rw [List.find?_eq_none]
      intro x hx hxk
      have := List.any_eq_false.mp h x hx
      exact this hxk
    rw [hnone]
    simp

/-- `objInsert` of key `k'` leaves lookups of any other key unchanged. -/
theorem objInsert_find_other (fs : List (String × JSValue)) {k k' : String}
    (v : JSValue) (h : k ≠ k') :
    ((objInsert fs k' v).find? fun p => p.1 == k) = fs.find? fun p => p.1 == k := by
  unfold objInsert
  cases hany : fs.any fun p => p.1 == k' with
  | true =>
    simp only [if_true]
    exact find_overwrite_other fs v h
  | false =>
    simp only [Bool.false_eq_true, if_false]
    rw [List.find?_append]
    have hlast : (([(k', v)] : List (String × JSValue)).find? fun p => p.1 == k) = none := by
      simp only [List.find?_eq_none, List.mem_singleton]
      rintro x rfl
      simp only [beq_iff_eq]
      exact fun hk => h hk.symm
    rw [hlast, Option.or_none]

/-- Membership in the key list after an `objInsert`: the old keys plus the
inserted key. -/
theorem objInsert_mem_keys (fs : List (String × JSValue)) (k a : String) (v : JSValue) :
    (a ∈ (objInsert fs k v).map fun p => p.1) ↔
      (a ∈ fs.map fun p => p.1) ∨ a = k := by
  unfold objInsert
  cases hany : fs.any fun p => p.1 == k with
  | true =>
    simp only [if_true]
    rw [keys_overwrite]
    obtain ⟨x, hx, hxk⟩ := List.any_eq_true.mp hany
    constructor
    · exact Or.inl
    · rintro (ha | rfl)
      · exact ha
      · exact List.mem_map.mpr ⟨x, hx, beq_iff_eq.mp hxk⟩
  | false =>
    simp only [Bool.false_eq_true, if_false, List.map_append, List.mem_append,
      List.map_cons, List.map_nil, List.mem_singleton]

/-- `getField` after inserting the same key yields the inserted value. -/
theorem getField_objInsert_self (fs : List (String × JSValue)) (k : String) (v : JSValue) :
    getField (.obj (objInsert fs k v)) k = v := by
  simp [getField, objInsert_find_self]

/-- `getField` after inserting a different key is unchanged. -/
theorem getField_objInsert_other (fs : List (String × JSValue)) {k k' : String}
    (v : JSValue) (h : k ≠ k') :
    getField (.obj (objInsert fs k' v)) k = getField (.obj fs) k := by
  simp [getField, objInsert_find_other fs v h]

/-- C6: the request interceptor, if and only if the request's content-type
header equals `application/cbor`, replaces the request body with its
CBOR-encoded form and sets the expected response type to `arraybuffer`; any
request with a different content-type is returned with every field
unchanged. -/
theorem cborRequestInterceptor_iff_marker (encodeAsync : JSValue → JSValue)
    (request : AxRequest) :
    (getHeader request.headers "content-type" = some "application/cbor" →
      cborRequestInterceptor encodeAsync request =
        { request with
            data := encodeAsync request.data
            responseType := some "arraybuffer" }) ∧
    (getHeader request.headers "content-type" ≠ some "application/cbor" →
      cborRequestInterceptor encodeAsync request = request) := by
  constructor
  · intro h
    simp [cborRequestInterceptor, h]
  · intro h
    simp [cborRequestInterceptor, h]

/-- Witness for C6 at concrete requests: a binary-marked request is encoded
and retagged, a JSON request passes through unchanged. -/
theorem cborRequestInterceptor_iff_marker_witness :
    cborRequestInterceptor encodeAsyncCbor exReqCbor =
      { exReqCbor with
          data := encodeAsyncCbor exReqCbor.data
          responseType := some "arraybuffer" } ∧
    cborRequestInterceptor encodeAsyncCbor exReqJson = exReqJson :=
  ⟨(cborRequestInterceptor_iff_marker encodeAsyncCbor exReqCbor).1 rfl,
   (cborRequestInterceptor_iff_marker encodeAsyncCbor exReqJson).2 (by decide)⟩

/-- C7: the response interceptor, when the content-type header equals the
binary marker, replaces `response.data` with the first decoded item of the
body (in particular the first of multiple concatenated values); any response
with a different content-type is returned with every field unchanged. -/
theorem cborResponseInterceptor_first_item (decodeAll : JSValue → List JSValue)
    (response : AxResponse) (v : JSValue) (vs : List JSValue) :
    (getHeader response.headers "content-type" = some "application/cbor" →
      cborResponseInterceptor decodeAll response =
        { response with data := firstDestructure (decodeAll response.data) } ∧
      (decodeAll response.data = v :: vs →
        (cborResponseInterceptor decodeAll response).data = v)) ∧
    (getHeader response.headers "content-type" ≠ some "application/cbor" →
      cborResponseInterceptor decodeAll response = response) := by
  refine ⟨fun h => ⟨by simp [cborResponseInterceptor, h], fun hd => ?_⟩, fun h => ?_⟩
  · simp [cborResponseInterceptor, h, hd, firstDestructure]
  · simp [cborResponseInterceptor, h]

/-- Witness for C7 at concrete responses: a body holding the two concatenated
items `7, 8` decodes to `7`; a JSON response passes through unchanged. -/
theorem cborResponseInterceptor_first_item_witness :
    (cborResponseInterceptor decodeAllCbor exRespMulti).data = JSValue.num 7 ∧
    cborResponseInterceptor decodeAllCbor exRespJson = exRespJson :=
  ⟨((cborResponseInterceptor_first_item decodeAllCbor exRespMulti
      (.num 7) [.num 8]).1 rfl).2 rfl,
   (cborResponseInterceptor_first_item decodeAllCbor exRespJson
      (.num 7) []).2 (by decide)⟩

/-- C9: for a binary-marked request/response pair, encoding by the request
interceptor and then decoding by the response interceptor yields the original
structured value, whenever the codec meets its roundtrip contract at that
value (the codec itself is an external library per the spec). -/
theorem codec_bridge_roundtrip (encodeAsync : JSValue → JSValue)
    (decodeAll : JSValue → List JSValue) (request : AxRequest)
    (respHeaders : List (String × String))
    (hreq : getHeader request.headers "content-type" = some "application/cbor")
    (hresp : getHeader respHeaders "content-type" = some "application/cbor")
    (hcodec : decodeAll (encodeAsync request.data) = [request.data]) :
    (cborResponseInterceptor decodeAll
      { headers := respHeaders
        data := (cborRequestInterceptor encodeAsync request).data }).data
      = request.data := by
  simp [cborRequestInterceptor, cborResponseInterceptor, hreq, hresp, hcodec,
    firstDestructure]

/-- Witness for C9: the concrete fragment codec round-trips the structured
value `[5, bytes, null, -3, 300]` through both interceptors. -/
theorem codec_bridge_roundtrip_witness :
    (cborResponseInterceptor decodeAllCbor
      { headers := [("content-type", "application/cbor")]
        data := (cborRequestInterceptor encodeAsyncCbor exReqRound).data }).data
      = exRoundTripValue :=
  codec_bridge_roundtrip encodeAsyncCbor decodeAllCbor exReqRound
    [("content-type", "application/cbor")] rfl rfl rfl

/-- C10: a binary-marked response whose body decodes to zero items does not
error: `response.data` becomes `undefined` and the response is returned. -/
theorem cborResponseInterceptor_empty_body (decodeAll : JSValue → List JSValue)
    (response : AxResponse)
    (hct : getHeader response.headers "content-type" = some "application/cbor")
    (hdec : decodeAll response.data = []) :
    cborResponseInterceptor decodeAll response =
      { response with data := JSValue.undefined } := by
  simp [cborResponseInterceptor, hct, hdec, firstDestructure]

/-- Witness for C10: the empty binary body decodes to zero items and the
interceptor returns the response with `undefined` data. -/
theorem cborResponseInterceptor_empty_body_witness :
    cborResponseInterceptor decodeAllCbor exRespEmpty =
      { exRespEmpty with data := JSValue.undefined } :=
  cborResponseInterceptor_empty_body decodeAllCbor exRespEmpty rfl rfl

/-- C2: when the begin post resolves and the platform credential capability
rejects, `failure_callback` is never invoked for that rejection (and
`success_callback` never fires, no complete post is issued): the rejection is
left unhandled by the chain. -/
theorem credential_rejection_not_surfaced (ax : CeremonyEnv) (payload : JSValue)
    (complete_context_callback : JSValue → JSValue → JSValue)
    (beginurl completeurl : String) (begin_failure_code complete_failure_code : Nat)
    (res : AxResponse) (err : JSValue)
    (hb : ax.post beginurl payload = .ok res)
    (hc : ax.credentials_callback res.data = .error err) :
    (webauthn_internal ax payload complete_context_callback beginurl completeurl
        begin_failure_code complete_failure_code).trace =
      { credentialsCalls := [res.data], posts := [(beginurl, payload)],
        successCalls := [], failureCalls := [] } := by
  simp [webauthn_internal, webauthn_from_opts, hb, hc]

/-- Witness for C2: a concrete user-cancelled ceremony leaves no success or
failure callback invocation. -/
theorem credential_rejection_not_surfaced_witness :
    (webauthn_internal exEnvCredReject exPayload login_complete_payload_callback
        "/api/auth/login/begin/" "/api/auth/login/"
        WEBAUTHN_LOGIN_FAIL_BEGIN WEBAUTHN_LOGIN_FAIL_COMPLETE).trace =
      { credentialsCalls := [exBeginResp.data]
        posts := [("/api/auth/login/begin/", exPayload)]
        successCalls := [], failureCalls := [] } :=
  credential_rejection_not_surfaced exEnvCredReject exPayload
    login_complete_payload_callback "/api/auth/login/begin/" "/api/auth/login/"
    WEBAUTHN_LOGIN_FAIL_BEGIN WEBAUTHN_LOGIN_FAIL_COMPLETE
    exBeginResp exCancelError rfl rfl

/-- C3: when the begin post resolves, the capability resolves and the
complete post resolves, `success_callback` is invoked exactly once with the
complete-endpoint's response and `failure_callback` is never invoked. -/
theorem ceremony_success (ax : CeremonyEnv) (payload : JSValue)
    (complete_context_callback : JSValue → JSValue → JSValue)
    (beginurl completeurl : String) (begin_failure_code complete_failure_code : Nat)
    (res : AxResponse) (auth : JSValue) (cres : AxResponse)
    (hb : ax.post beginurl payload = .ok res)
    (hc : ax.credentials_callback res.data = .ok auth)
    (hp : ax.post completeurl (complete_context_callback payload auth) = .ok cres) :
    (webauthn_internal ax payload complete_context_callback beginurl completeurl
        begin_failure_code complete_failure_code).trace =
      { credentialsCalls := [res.data]
        posts := [(beginurl, payload),
                  (completeurl, complete_context_callback payload auth)]
        successCalls := [cres], failureCalls := [] } := by
  simp [webauthn_internal, webauthn_from_opts, hb, hc, hp]

/-- Witness for C3: a fully successful concrete login ceremony calls
`success_callback` once with the complete response. -/
theorem ceremony_success_witness :
    (webauthn_internal exEnvSuccess exPayload login_complete_payload_callback
        "/api/auth/login/begin/" "/api/auth/login/"
        WEBAUTHN_LOGIN_FAIL_BEGIN WEBAUTHN_LOGIN_FAIL_COMPLETE).trace =
      { credentialsCalls := [exBeginResp.data]
        posts := [("/api/auth/login/begin/", exPayload),
                  ("/api/auth/login/",
                   login_complete_payload_callback exPayload exAssertion)]
        successCalls := [exCompleteResp], failureCalls := [] } :=
  ceremony_success exEnvSuccess exPayload login_complete_payload_callback
    "/api/auth/login/begin/" "/api/auth/login/"
    WEBAUTHN_LOGIN_FAIL_BEGIN WEBAUTHN_LOGIN_FAIL_COMPLETE
    exBeginResp exAssertion exCompleteResp rfl rfl rfl

/-- C4: when the begin post resolves, the capability resolves and the
complete post rejects, `failure_callback` is invoked exactly once with the
complete-phase failure code and `success_callback` is not invoked. -/
theorem complete_failure_reported (ax : CeremonyEnv) (payload : JSValue)
    (complete_context_callback : JSValue → JSValue → JSValue)
    (beginurl completeurl : String) (begin_failure_code complete_failure_code : Nat)
    (res : AxResponse) (auth : JSValue) (err : JSValue)
    (hb : ax.post beginurl payload = .ok res)
    (hc : ax.credentials_callback res.data = .ok auth)
    (hp : ax.post completeurl (complete_context_callback payload auth) = .error err) :
    (webauthn_internal ax payload complete_context_callback beginurl completeurl
        begin_failure_code complete_failure_code).trace =
      { credentialsCalls := [res.data]
        posts := [(beginurl, payload),
                  (completeurl, complete_context_callback payload auth)]
        successCalls := []
        failureCalls := [(err, complete_failure_code)] } := by
  simp [webauthn_internal, webauthn_from_opts, hb, hc, hp]

/-- Witness for C4: a concrete login ceremony whose complete post fails calls
`failure_callback` once with `WEBAUTHN_LOGIN_FAIL_COMPLETE`. -/
theorem complete_failure_reported_witness :
    (webauthn_internal exEnvCompleteFail exPayload login_complete_payload_callback
        "/api/auth/login/begin/" "/api/auth/login/"
        WEBAUTHN_LOGIN_FAIL_BEGIN WEBAUTHN_LOGIN_FAIL_COMPLETE).trace =
      { credentialsCalls := [exBeginResp.data]
        posts := [("/api/auth/login/begin/", exPayload),
                  ("/api/auth/login/",
                   login_complete_payload_callback exPayload exAssertion)]
        successCalls := []
        failureCalls := [(exCompleteError, WEBAUTHN_LOGIN_FAIL_COMPLETE)] } :=
  complete_failure_reported exEnvCompleteFail exPayload
    login_complete_payload_callback "/api/auth/login/begin/" "/api/auth/login/"
    WEBAUTHN_LOGIN_FAIL_BEGIN WEBAUTHN_LOGIN_FAIL_COMPLETE
    exBeginResp exAssertion exCompleteError rfl rfl rfl

/-- C1 (behavior at the failing input): when the begin post rejects, the
chain does not stop after `failure_callback` — the `.catch` resolves with the
callback's return value, so `credentials_callback` is still invoked (with
`undefined`), the complete post is still issued, and `failure_callback` can
fire a second time with the complete-phase code. -/
theorem begin_failure_does_not_stop_chain :
    (webauthn_login exEnvBeginFail exPayload
        "/api/auth/login/begin/" "/api/auth/login/").trace =
      { credentialsCalls := [JSValue.undefined]
        posts := [("/api/auth/login/begin/", exPayload),
                  ("/api/auth/login/",
                   login_complete_payload_callback exPayload exAssertion)]
        successCalls := []
        failureCalls := [(exBeginError, WEBAUTHN_LOGIN_FAIL_BEGIN),
                         (exCompleteError, WEBAUTHN_LOGIN_FAIL_COMPLETE)] } := by
  rfl

/-- C8 (behavior of the source): `webauthn_internal`'s body never returns the
promise chain, so both public entry points return `undefined` to their
caller — there is no in-flight operation handle to chain on. -/
theorem entry_points_return_undefined (ax : CeremonyEnv) (payload : JSValue)
    (beginurl completeurl : String) :
    (webauthn_login ax payload beginurl completeurl).ret = none ∧
    (webauthn_register ax payload beginurl completeurl).ret = none := by
  constructor
  · unfold webauthn_login webauthn_internal
    cases ax.post beginurl payload <;> rfl
  · unfold webauthn_register webauthn_internal
    cases ax.post beginurl payload <;> rfl

/-- C5: the registration CompletePayload holds exactly the original payload's
keys plus `attestationObject` and `clientDataJSON`; the authentication
CompletePayload exactly the original keys plus `credentialId`,
`authenticatorData`, `clientDataJSON`, `signature`. No other key is added, no
original key is removed (keys outside the added set keep their original
value), and each added field is the binary buffer extracted from the
credential result by the shallow merge. -/
theorem complete_payload_exact_merge (fields : List (String × JSValue))
    (assertion attestation : JSValue) (k : String) :
    ((k ∈ objKeys (login_complete_payload_callback (.obj fields) assertion)) ↔
      ((k ∈ fields.map fun p => p.1) ∨
        k ∈ (["credentialId", "authenticatorData", "clientDataJSON",
              "signature"] : List String))) ∧
    ((k ∈ objKeys (register_complete_payload_callback (.obj fields) attestation)) ↔
      ((k ∈ fields.map fun p => p.1) ∨
        k ∈ (["attestationObject", "clientDataJSON"] : List String))) ∧
    (k ∉ (["credentialId", "authenticatorData", "clientDataJSON",
           "signature"] : List String) →
      getField (login_complete_payload_callback (.obj fields) assertion) k
        = getField (.obj fields) k) ∧
    (k ∉ (["attestationObject", "clientDataJSON"] : List String) →
      getField (register_complete_payload_callback (.obj fields) attestation) k
        = getField (.obj fields) k) ∧
    getField (login_complete_payload_callback (.obj fields) assertion) "credentialId"
      = toUint8Array (getField assertion "rawId") ∧
    getField (login_complete_payload_callback (.obj fields) assertion) "authenticatorData"
      = toUint8Array (getField (getField assertion "response") "authenticatorData") ∧
    getField (login_complete_payload_callback (.obj fields) assertion) "clientDataJSON"
      = toUint8Array (getField (getField assertion "response") "clientDataJSON") ∧
    getField (login_complete_payload_callback (.obj fields) assertion) "signature"
      = toUint8Array (getField (getField assertion "response") "signature") ∧
    getField (register_complete_payload_callback (.obj fields) attestation) "attestationObject"
      = toUint8Array (getField (getField attestation "response") "attestationObject") ∧
    getField (register_complete_payload_callback (.obj fields) attestation) "clientDataJSON"
      = toUint8Array (getField (getField attestation "response") "clientDataJSON") ∧
    (∀ v : JSValue, ∃ bs, toUint8Array v = .bytes bs) := by
  refine ⟨?_, ?_, ?_, ?_, ?_, ?_, ?_, ?_, ?_, ?_, ?_⟩
  · simp only [login_complete_payload_callback, objKeys, objSpread,
      objInsert_mem_keys, List.mem_cons, List.not_mem_nil, or_false]
    tauto
  · simp only [register_complete_payload_callback, objKeys, objSpread,
      objInsert_mem_keys, List.mem_cons, List.not_mem_nil, or_false]
    tauto
  · intro h
    simp only [List.mem_cons, List.not_mem_nil, or_false, not_or] at h
    obtain ⟨h1, h2, h3, h4⟩ := h
    unfold login_complete_payload_callback
    rw [getField_objInsert_other _ _ h4, getField_objInsert_other _ _ h3,
      getField_objInsert_other _ _ h2, getField_objInsert_other _ _ h1]
    rfl
  · intro h
    simp only [List.mem_cons, List.not_mem_nil, or_false, not_or] at h
    obtain ⟨h1, h2⟩ := h
    unfold register_complete_payload_callback
    rw [getField_objInsert_other _ _ h2, getField_objInsert_other _ _ h1]
    rfl
  · unfold login_complete_payload_callback
    rw [getField_objInsert_other _ _ (by decide), getField_objInsert_other _ _ (by decide),
      getField_objInsert_other _ _ (by decide), getField_objInsert_self]
  · unfold login_complete_payload_callback
    rw [getField_objInsert_other _ _ (by decide), getField_objInsert_other _ _ (by decide),
      getField_objInsert_self]
  · unfold login_complete_payload_callback
    rw [getField_objInsert_other _ _ (by decide), getField_objInsert_self]
  · unfold login_complete_payload_callback
    rw [getField_objInsert_self]
  · unfold register_complete_payload_callback
    rw [getField_objInsert_other _ _ (by decide), getField_objInsert_self]
  · unfold register_complete_payload_callback
    rw [getField_objInsert_self]
  · intro v
    cases v <;> exact ⟨_, rfl⟩

/-- Witness for C5: applied to `{username: "alice"}` and the concrete
assertion, the original key survives the merge with its original value. -/
theorem complete_payload_exact_merge_witness :
    getField (login_complete_payload_callback exPayload exAssertion) "username"
      = JSValue.str "alice" := by
  have h := (complete_payload_exact_merge [("username", JSValue.str "alice")]
    exAssertion exAttestation "username").2.2.1 (by decide)
  exact h.trans rfl
